import Mathlib

/-!
Shallow embedding of `circuitSimulation.py`: a simulated two-resistor
circuit, periodic measurement devices (ammeter / voltmeter) with a
push-based observer protocol, and an aggregating ohmmeter with a
"last value" and a "rolling window mean" read policy.

Python floats are modelled as `ℚ`; `datetime` timestamps as `ℚ` seconds;
exceptions as `Except PyError`.  `timedelta.seconds` (the normalized
seconds component) is the floor of the difference taken modulo 86400.
-/

/-- Python exceptions that the modelled code can raise. -/
inductive PyError where
  /-- `NameError`: an undefined global name was referenced. -/
  | nameError : String → PyError
  /-- `AttributeError`: attribute access failed (e.g. on `None`). -/
  | attributeError : String → PyError
  /-- `IndexError`: list index out of range. -/
  | indexError : PyError
  /-- `ValueError` with its message. -/
  | valueError : String → PyError
  /-- `ZeroDivisionError` from float division. -/
  | zeroDivisionError : PyError
  deriving DecidableEq, Repr

/-- A `(timestamp, value)` tuple as stored in device histories. -/
abbrev Sample := ℚ × ℚ

/-- The circuit's stored state: `vs`, `rmax`, `rl` and the mutable `_r1`.
Scheduling fields (`timeout`, `duration`, `print_timeout`) are omitted as
they never influence the claims' computations; `connected_devices` is
modelled in the wiring section below. -/
structure Circuit where
  vs : ℚ
  rmax : ℚ
  rl : ℚ
  r1 : ℚ
  deriving DecidableEq, Repr

namespace Circuit

/-- The `r1` property setter: `self._r1 = min(max(0,val),self.rmax)`. -/
def setR1 (c : Circuit) (val : ℚ) : Circuit :=
  { c with r1 := min (max 0 val) c.rmax }

/-- `r2 = rmax - r1` (derived property). -/
def r2 (c : Circuit) : ℚ := c.rmax - c.r1

/-- `rp = (r2 * rl) / (r2 + rl)` (derived property). -/
def rp (c : Circuit) : ℚ := (c.r2 * c.rl) / (c.r2 + c.rl)

/-- `volt = vs * (1 - r1/(r1 + rp))` (derived property). -/
def volt (c : Circuit) : ℚ := c.vs * (1 - c.r1 / (c.r1 + c.rp))

/-- `amp = volt / rl` (derived property). -/
def amp (c : Circuit) : ℚ := c.volt / c.rl

/-- `update`: with `t` the elapsed time since the simulation start
(`self.loop.time() - self.t0`), assigns `self.r1 = min(10*t, self.rmax)`
through the clamping setter. -/
def update (c : Circuit) (t : ℚ) : Circuit :=
  c.setR1 (min (10 * t) c.rmax)

/-- `getattr(circuit, p)` for the property names the devices sample. -/
def getProp (c : Circuit) (p : String) : Option ℚ :=
  if p = "volt" then some c.volt
  else if p = "amp" then some c.amp
  else if p = "r1" then some c.r1
  else if p = "r2" then some c.r2
  else if p = "rp" then some c.rp
  else none

end Circuit

/-- The circuit built by the program entry point:
`Circuit(rmax=100, rl=30, r1=0, vs=10, ...)`. -/
def mainCircuit : Circuit :=
  { vs := 10, rmax := 100, rl := 30, r1 := 0 }

/-- Observable effects of one `Device.read()` call, in execution order. -/
inductive ReadEvent where
  /-- the sample tuple was appended to `self.values` -/
  | append : Sample → ReadEvent
  /-- `dev._update(self.name, vtup)` was called on child observer `dev` -/
  | notify : Nat → String → Sample → ReadEvent
  /-- the sample line was printed -/
  | printSample : Sample → ReadEvent
  /-- the "connect ... to a circuit" line was printed -/
  | printNotConnected : ReadEvent
  deriving DecidableEq, Repr

/-- A measurement device (`Device` / `Voltmeter` / `Ammeter`).  Child
observers are identified by `Nat` handles; `parameter`/`unit` use `""`
for Python `None` (only the subclasses, which set both, are ever read). -/
structure Device where
  values : List Sample
  unit : String
  circuit : Option Circuit
  parameter : String
  name : String
  childDevices : List Nat
  timeout : ℚ
  deriving DecidableEq, Repr

namespace Device

/-- `Device.read`.  Faithful to the source, the not-connected guard tests
the module-global name `circuit` (not `self.circuit`): `globalCircuit` is
`none` when that global name is unbound (`NameError`), `some none` when it
is bound to `None`, and `some (some g)` when bound to a circuit.  In the
sampling branch, `getattr(self.circuit, self.parameter)` on an unbound
`self.circuit` (Python `None`) raises `AttributeError`. -/
def read (globalCircuit : Option (Option Circuit)) (d : Device) (now : ℚ) :
    Except PyError (Device × List ReadEvent) :=
  match globalCircuit with
  | none => .error (.nameError "circuit")
  | some none => .ok (d, [.printNotConnected])
  | some (some _) =>
    match d.circuit with
    | none => .error (.attributeError d.parameter)
    | some c =>
      match c.getProp d.parameter with
      | none => .error (.attributeError d.parameter)
      | some value =>
        .ok ({ d with values := d.values ++ [(now, value)] },
             ReadEvent.append (now, value) ::
               d.childDevices.map (fun cid => ReadEvent.notify cid d.name (now, value))
               ++ [ReadEvent.printSample (now, value)])

end Device

/-- `Voltmeter(circuit=..., timeout=...)`: sets `unit='V'`, `name='voltmeter'`,
`parameter='volt'` (registration into `circuit.connected_devices` is modelled
in the wiring section). -/
def mkVoltmeter (circuit : Option Circuit) (timeout : ℚ) : Device :=
  { values := [], unit := "V", circuit := circuit, parameter := "volt",
    name := "voltmeter", childDevices := [], timeout := timeout }

/-- `Ammeter(circuit=..., timeout=...)`: sets `unit='A'`, `name='ammeter'`,
`parameter='amp'`. -/
def mkAmmeter (circuit : Option Circuit) (timeout : ℚ) : Device :=
  { values := [], unit := "A", circuit := circuit, parameter := "amp",
    name := "ammeter", childDevices := [], timeout := timeout }

/-- Result of one `Ohmmeter.read()` call. -/
inductive Report where
  /-- the ohmmeter printed the computed resistance -/
  | value : ℚ → Report
  /-- "Ohmmeter: not enough data in memory" was printed -/
  | notEnough : Report
  deriving DecidableEq, Repr

/-- `Ohmmeter.last_rl`: `V/I` of the latest samples; `[-1]` on an empty
history raises `IndexError` (ammeter first, as in the source), and float
division by `I = 0` raises `ZeroDivisionError`. -/
def last_rl (av vv : List Sample) : Except PyError ℚ :=
  match av.getLast? with
  | none => .error .indexError
  | some (_, i) =>
    match vv.getLast? with
    | none => .error .indexError
    | some (_, v) =>
      if i = 0 then .error .zeroDivisionError else .ok (v / i)

/-- `(t0 - ts).seconds`: the normalized seconds component of a Python
`timedelta`, i.e. `⌊t0 - ts⌋ mod 86400` (Python `%`, like `Int.emod`,
yields a result in `[0, 86400)`). -/
def tdSeconds (t0 ts : ℚ) : ℤ := ⌊t0 - ts⌋ % 86400

/-- The rolling-mode selection test of `Ohmmeter.mean_rl`:
`(t0 - tpl[0]).seconds > self.window`. -/
def qualifies (window t0 : ℚ) (s : Sample) : Bool :=
  window < (tdSeconds t0 s.1 : ℚ)

/-- Sum of the value components of a sample list. -/
def sumSnd (l : List Sample) : ℚ := (l.map Prod.snd).sum

/-- The samples of one channel that pass the selection test of
`Ohmmeter.mean_rl`. -/
def qFilter (window t0 : ℚ) (l : List Sample) : List Sample :=
  l.filter (qualifies window t0)

/-- The per-channel mean of the qualifying samples (`aVal/aCount` resp.
`vVal/vCount` in the source). -/
def qMean (window t0 : ℚ) (l : List Sample) : ℚ :=
  sumSnd (qFilter window t0 l) / ((qFilter window t0 l).length : ℚ)

/-- `Ohmmeter.mean_rl`: per channel, sum and count the samples passing the
selection test, then return `vMean / aMean`; every `ZeroDivisionError`
(empty ammeter count, empty voltmeter count, or zero ammeter mean) is
caught and turned into `None`. -/
def mean_rl (window : ℚ) (av vv : List Sample) (t0 : ℚ) : Option ℚ :=
  if (qFilter window t0 av).length = 0 then none
  else if (qFilter window t0 vv).length = 0 then none
  else if qMean window t0 av = 0 then none
  else some (qMean window t0 vv / qMean window t0 av)

/-- Python truthiness of `val` in `Ohmmeter.read` (`None` and `0.0` are
falsy). -/
def truthy : Option ℚ → Bool
  | none => false
  | some q => q ≠ 0

/-- `Ohmmeter.read()`: pick `val` by mode (`last_rl` may raise; `mean_rl`
may be `None`; any other mode leaves `val` unbound, an `UnboundLocalError`
modelled as a name error), then print the value only when both histories
are non-empty and `val` is truthy, else print "not enough data". -/
def ohmRead (mode : String) (window : ℚ) (av vv : List Sample) (now : ℚ) :
    Except PyError Report :=
  let valE : Except PyError (Option ℚ) :=
    if mode = "last" then (last_rl av vv).map some
    else if mode = "rolling" then .ok (mean_rl window av vv now)
    else .error (.nameError "val")
  match valE with
  | .error e => .error e
  | .ok val =>
    if 0 < av.length ∧ 0 < vv.length ∧ truthy val then
      .ok (.value (val.getD 0))
    else
      .ok .notEnough

/-- The rolling-mode selection rule as the specification words it: a sample
qualifies when its age, measured from the aggregation instant, strictly
exceeds the window.  Kept separate from `qualifies` (the code's rule) to
compare the two. -/
def specQualifies (window t0 : ℚ) (s : Sample) : Bool :=
  window < t0 - s.1

/-- `mean_rl` as the specification describes it: identical to `mean_rl`
except that samples are selected by real age (`specQualifies`) instead of
truncated whole seconds. -/
def spec_mean_rl (window : ℚ) (av vv : List Sample) (t0 : ℚ) : Option ℚ :=
  let aq := av.filter (specQualifies window t0)
  let vq := vv.filter (specQualifies window t0)
  if aq.length = 0 then none
  else
    let aMean := sumSnd aq / (aq.length : ℚ)
    if vq.length = 0 then none
    else
      let vMean := sumSnd vq / (vq.length : ℚ)
      if aMean = 0 then none
      else some (vMean / aMean)

/-- Values a Python attribute of the ohmmeter can hold. -/
inductive PyVal where
  | num : ℚ → PyVal
  | str : String → PyVal
  /-- reference to a device object, by handle -/
  | devRef : Nat → PyVal
  /-- reference to a circuit object, by handle -/
  | circRef : Nat → PyVal
  | pyNone : PyVal
  | samples : List Sample → PyVal
  deriving DecidableEq, Repr

/-- A Python object's attribute dictionary, in insertion order. -/
abbrev Attrs := List (String × PyVal)

/-- `getattr(self, n)`, as an `Option`. -/
def getattrA (a : Attrs) (n : String) : Option PyVal :=
  match a.find? (fun p => p.1 == n) with
  | some p => some p.2
  | none => none

/-- `setattr(self, n, v)`: overwrite in place, or add at the end. -/
def setattrA (a : Attrs) (n : String) (v : PyVal) : Attrs :=
  if (a.find? (fun p => p.1 == n)).isSome then
    a.map (fun p => if p.1 == n then (n, v) else p)
  else a ++ [(n, v)]

/-- `hasattr(self, n)`. -/
def hasattrA (a : Attrs) (n : String) : Bool :=
  (getattrA a n).isSome

/-- Ohmmeter wiring state: its attribute dictionary together with the
side effects its binding methods perform on other objects —
`observerRegs` records each `device.child_devices.append(self)` and
`circuitRegs` each `circuit.connected_devices.append(self)`, in order.
Devices and circuits are identified by `Nat` handles; `env` maps a device
handle to the handle of its bound circuit (`none` = unbound), modelling
`device.circuit` under Python object identity. -/
structure OhmM where
  attrs : Attrs
  observerRegs : List Nat
  circuitRegs : List Nat
  deriving DecidableEq, Repr

namespace Ohmmeter

/-- `Ohmmeter.connect_circuit`: when both `self.ammeter` and
`self.voltmeter` are bound, compare their circuits; a mismatch executes
`raise VauleError(...)`, which — `VauleError` being an undefined name —
actually raises `NameError`.  Otherwise `self.circuit` is set and `self`
is appended to that circuit's `connected_devices` (appending to a `None`
circuit raises `AttributeError`). -/
def connect_circuit (env : Nat → Option Nat) (s : OhmM) : Except PyError OhmM :=
  match getattrA s.attrs "ammeter", getattrA s.attrs "voltmeter" with
  | some (.devRef am), some (.devRef vm) =>
    if env am ≠ env vm then
      .error (.nameError "VauleError")
    else
      match env am with
      | some cid =>
        .ok { s with attrs := setattrA s.attrs "circuit" (.circRef cid),
                     circuitRegs := s.circuitRegs ++ [cid] }
      | none => .error (.attributeError "connected_devices")
  | _, _ => .ok s

/-- `Ohmmeter.connect(name, device)`: `hasattr(self, name)` decides between
binding (`setattr`, then `device.child_devices.append(self)`) and raising
`ValueError`; on the binding path `connect_circuit()` runs afterwards. -/
def connect (env : Nat → Option Nat) (s : OhmM) (role : String) (d : Nat) :
    Except PyError OhmM :=
  if hasattrA s.attrs role then
    connect_circuit env
      { s with attrs := setattrA s.attrs role (.devRef d),
               observerRegs := s.observerRegs ++ [d] }
  else
    .error (.valueError role)

/-- `Ohmmeter.__init__`: start with `self.ammeter = None`,
`self.voltmeter = None`; `connect` each given device; set `timeout`,
`mode`, `window`, the two empty histories; finally call
`connect_circuit()` once more. -/
def init (env : Nat → Option Nat) (ammeter voltmeter : Option Nat)
    (timeout : ℚ) (mode : String) (window : ℚ) : Except PyError OhmM :=
  let s0 : OhmM := { attrs := [("ammeter", .pyNone), ("voltmeter", .pyNone)],
                     observerRegs := [], circuitRegs := [] }
  (match ammeter with
   | some d => connect env s0 "ammeter" d
   | none => Except.ok s0).bind fun s1 =>
  (match voltmeter with
   | some d => connect env s1 "voltmeter" d
   | none => Except.ok s1).bind fun s2 =>
  let s3 : OhmM :=
    { s2 with attrs :=
        setattrA (setattrA (setattrA (setattrA (setattrA s2.attrs
          "timeout" (.num timeout)) "mode" (.str mode)) "window" (.num window))
          "ammeter_values" (.samples [])) "voltmeter_values" (.samples []) }
  connect_circuit env s3

end Ohmmeter

/-- Device environment of the program entry point: devices `0` (ammeter)
and `1` (voltmeter) both bound to circuit `7`. -/
def sameEnv : Nat → Option Nat := fun _ => some 7

/-- A device environment with the ammeter (handle `0`) on circuit `7` and
every other device on circuit `8`. -/
def splitEnv : Nat → Option Nat := fun d => if d = 0 then some 7 else some 8

/-- A voltmeter bound to the entry-point circuit, with two registered
child observers (handles `0` and `1`), used to instantiate the
observer-ordering theorem. -/
def witDevice : Device :=
  { mkVoltmeter (some mainCircuit) (1 / 10) with childDevices := [0, 1] }

/-- Helper: `mean_rl` on channels with qualifying samples and a nonzero
qualifying ammeter mean returns the ratio of the two qualifying means. -/
lemma mean_rl_eq_ratio (window t0 : ℚ) (av vv : List Sample)
    (h1 : qFilter window t0 av ≠ []) (h2 : qFilter window t0 vv ≠ [])
    (h3 : qMean window t0 av ≠ 0) :
    mean_rl window av vv t0 = some (qMean window t0 vv / qMean window t0 av) := by
  unfold mean_rl
  rw [if_neg (by simpa using h1), if_neg (by simpa using h2), if_neg h3]

/-- Helper: `mean_rl` returns `None` when either channel has no qualifying
sample or the qualifying ammeter mean is zero. -/
lemma mean_rl_eq_none (window t0 : ℚ) (av vv : List Sample)
    (h : qFilter window t0 av = [] ∨ qFilter window t0 vv = [] ∨
         qMean window t0 av = 0) :
    mean_rl window av vv t0 = none := by
  unfold mean_rl
  rcases h with h | h | h
  · rw [if_pos (by simp [h])]
  · by_cases ha : (qFilter window t0 av).length = 0
    · rw [if_pos ha]
    · rw [if_neg ha, if_pos (by simp [h])]
  · by_cases ha : (qFilter window t0 av).length = 0
    · rw [if_pos ha]
    · by_cases hv : (qFilter window t0 vv).length = 0
      · rw [if_neg ha, if_pos hv]
      · rw [if_neg ha, if_neg hv, if_pos h]

/-- Claim C6: for every value `x` (negative, above `rmax`, or in range) and
any circuit with a non-negative `rmax`, assigning `r1 = x` stores
`min(max(0,x), rmax) = clamp(x, 0, rmax)`, so `0 ≤ r1 ≤ rmax` holds after
every assignment to `r1`. -/
theorem r1_setter_clamps (c : Circuit) (x : ℚ) (h : 0 ≤ c.rmax) :
    (c.setR1 x).r1 = min (max 0 x) c.rmax ∧
    (c.setR1 x).r1 = max 0 (min x c.rmax) ∧
    0 ≤ (c.setR1 x).r1 ∧ (c.setR1 x).r1 ≤ c.rmax := by
  refine ⟨rfl, ?_, le_min (le_max_left 0 x) h, min_le_right _ _⟩
  show min (max 0 x) c.rmax = max 0 (min x c.rmax)
  rw [max_min_distrib_left, max_eq_right h]

/-- Witness for C6 at `mainCircuit` and the out-of-range value `x = -5`. -/
theorem r1_setter_clamps_witness :
    (0 : ℚ) ≤ mainCircuit.rmax ∧
    ((mainCircuit.setR1 (-5)).r1 = min (max 0 (-5)) mainCircuit.rmax ∧
     (mainCircuit.setR1 (-5)).r1 = max 0 (min (-5) mainCircuit.rmax) ∧
     0 ≤ (mainCircuit.setR1 (-5)).r1 ∧ (mainCircuit.setR1 (-5)).r1 ≤ mainCircuit.rmax) :=
  ⟨by norm_num [mainCircuit], r1_setter_clamps mainCircuit (-5) (by norm_num [mainCircuit])⟩

/-- Claim C7: `update` with elapsed time `t ≥ 0` (and `rmax ≥ 0`) sets
`r1 = min(10*t, rmax)`, the ramp rate being the fixed constant `10`; with
`rmax = 100`, elapsed `5` gives `r1 = 50` and elapsed `20` gives
`r1 = 100` (clamped). -/
theorem update_ramps_r1 (c : Circuit) (t : ℚ) (h0 : 0 ≤ t) (h : 0 ≤ c.rmax) :
    (c.update t).r1 = min (10 * t) c.rmax ∧
    (mainCircuit.update 5).r1 = 50 ∧ (mainCircuit.update 20).r1 = 100 := by
  refine ⟨?_, by norm_num [Circuit.update, Circuit.setR1, mainCircuit],
    by norm_num [Circuit.update, Circuit.setR1, mainCircuit]⟩
  show min (max 0 (min (10 * t) c.rmax)) c.rmax = min (10 * t) c.rmax
  rw [max_eq_right (le_min (mul_nonneg (by norm_num) h0) h),
    min_eq_left (min_le_right _ _)]

/-- Witness for C7 at `mainCircuit` and `t = 5`. -/
theorem update_ramps_r1_witness :
    (0 : ℚ) ≤ 5 ∧ (0 : ℚ) ≤ mainCircuit.rmax ∧
    ((mainCircuit.update 5).r1 = min (10 * 5) mainCircuit.rmax ∧
     (mainCircuit.update 5).r1 = 50 ∧ (mainCircuit.update 20).r1 = 100) :=
  ⟨by norm_num, by norm_num [mainCircuit],
    update_ramps_r1 mainCircuit 5 (by norm_num) (by norm_num [mainCircuit])⟩

/-- Claim C8: the derived quantities are pure functions of the state
satisfying `r2 = rmax - r1`, `rp = r2*rl/(r2+rl)`, `volt = vs*(1 -
r1/(r1+rp))`, `amp = volt/rl`; for `rmax=100, rl=30, vs=10, r1=0` they
give `r2 = 100`, `rp = 3000/130`, `volt = 10`, `amp = 1/3`. -/
theorem derived_quantity_formulas :
    (∀ c : Circuit,
      c.r2 = c.rmax - c.r1 ∧ c.rp = c.r2 * c.rl / (c.r2 + c.rl) ∧
      c.volt = c.vs * (1 - c.r1 / (c.r1 + c.rp)) ∧ c.amp = c.volt / c.rl) ∧
    mainCircuit.r2 = 100 ∧ mainCircuit.rp = 3000 / 130 ∧
    mainCircuit.volt = 10 ∧ mainCircuit.amp = 1 / 3 := by
  refine ⟨fun c => ⟨rfl, rfl, rfl, rfl⟩, ?_, ?_, ?_, ?_⟩ <;>
    norm_num [Circuit.r2, Circuit.rp, Circuit.volt, Circuit.amp, mainCircuit]

/-- Claim C1 (failing part): in `last` mode, `read()` evaluates
`self.last_rl` — which indexes `[-1]` — before its emptiness guard, so an
empty ammeter history raises `IndexError` instead of reporting the
insufficient-data condition; with latest current `2.0` and latest voltage
`10.0` it does report `R = 5.0`. -/
theorem last_mode_empty_history_raises :
    ohmRead "last" 2 ([] : List Sample) [(0, 10)] 0 = .error .indexError ∧
    ohmRead "last" 2 ([(0, 10)] : List Sample) [] 0 = .error .indexError ∧
    ohmRead "last" 2 [(0, 2)] [(0, 10)] 0 = .ok (.value 5) := by
  refine ⟨?_, ?_, ?_⟩ <;> norm_num [ohmRead, last_rl, truthy, Except.map]

/-- Claim C2 (failing part): a device whose own `circuit` binding is `None`
crashes on `read()` — the not-connected guard tests the module-global name
`circuit`, so with that global bound (as in the program entry point) the
read reaches `getattr(None, 'volt')` and raises `AttributeError`, and with
the global unbound it raises `NameError`; in neither case is the condition
merely reported. -/
theorem unconnected_device_read_raises :
    Device.read (some (some mainCircuit)) (mkVoltmeter none (1 / 10)) 3 =
      .error (.attributeError "volt") ∧
    Device.read none (mkVoltmeter none (1 / 10)) 3 =
      .error (.nameError "circuit") :=
  ⟨rfl, rfl⟩

/-- Counterexample to claim C3 as stated: with `window = 2`, a single
sample of age `5/2` in each channel (ammeter value `1`, voltmeter value
`5`) has age exceeding the window, so the claim demands the ratio of
means `5`; the code truncates the age to `⌊5/2⌋ = 2` whole seconds,
disqualifies both samples, and reports "no result". -/
theorem rolling_age_selection_counterexample :
    (10 : ℚ) - 15 / 2 > 2 ∧
    spec_mean_rl 2 [(15 / 2, 1)] [(15 / 2, 5)] 10 = some 5 ∧
    mean_rl 2 [(15 / 2, 1)] [(15 / 2, 5)] 10 = none ∧
    ohmRead "rolling" 2 [(15 / 2, 1)] [(15 / 2, 5)] 10 = .ok .notEnough := by
  refine ⟨by norm_num, ?_, ?_, ?_⟩
  · norm_num [spec_mean_rl, specQualifies, sumSnd, List.filter]
  · norm_num [mean_rl, qFilter, qualifies, tdSeconds, List.filter]
  · unfold ohmRead
    rw [if_neg (by decide), if_pos rfl]
    norm_num [mean_rl, qFilter, qualifies, tdSeconds, List.filter, truthy]

/-- Claim C3 as amended: in `rolling` mode the per-channel selection keeps
the samples whose age *truncated to whole seconds* (`timedelta.seconds`)
exceeds the window; when both channels have qualifying samples and both
qualifying means are nonzero, `read()` reports `mean_voltage /
mean_current`, and whenever either channel has no qualifying sample or
the qualifying mean current is zero it reports "no result" rather than
crashing. -/
theorem rolling_mode_mean_ratio (window t0 : ℚ) (av vv : List Sample)
    (h1 : qFilter window t0 av ≠ []) (h2 : qFilter window t0 vv ≠ [])
    (h3 : qMean window t0 av ≠ 0) (h4 : qMean window t0 vv ≠ 0) :
    ohmRead "rolling" window av vv t0 =
      .ok (.value (qMean window t0 vv / qMean window t0 av)) ∧
    ∀ (av' vv' : List Sample),
      (qFilter window t0 av' = [] ∨ qFilter window t0 vv' = [] ∨
       qMean window t0 av' = 0) →
      ohmRead "rolling" window av' vv' t0 = .ok .notEnough := by
  constructor
  · have hav : 0 < av.length := by
      rcases List.exists_mem_of_ne_nil _ h1 with ⟨s, hs⟩
      have : s ∈ av := List.mem_of_mem_filter hs
      exact List.length_pos.mpr (List.ne_nil_of_mem this)
    have hvv : 0 < vv.length := by
      rcases List.exists_mem_of_ne_nil _ h2 with ⟨s, hs⟩
      have : s ∈ vv := List.mem_of_mem_filter hs
      exact List.length_pos.mpr (List.ne_nil_of_mem this)
    unfold ohmRead
    rw [if_neg (by decide), if_pos rfl,
      mean_rl_eq_ratio window t0 av vv h1 h2 h3]
    simp only [truthy]
    rw [if_pos ⟨hav, hvv, by simpa using div_ne_zero h4 h3⟩]
    rfl
  · intro av' vv' h
    unfold ohmRead
    rw [if_neg (by decide), if_pos rfl, mean_rl_eq_none window t0 av' vv' h]
    simp [truthy]

/-- Witness for the amended C3: `window = 2`, aggregation instant `10`,
one ammeter sample `(0, 2)` and one voltmeter sample `(0, 6)`, both of
age `10 > 2`; the reported ratio of means is `3`. -/
theorem rolling_mode_mean_ratio_witness :
    qFilter 2 10 [((0 : ℚ), (2 : ℚ))] ≠ [] ∧ qFilter 2 10 [((0 : ℚ), (6 : ℚ))] ≠ [] ∧
    qMean 2 10 [((0 : ℚ), (2 : ℚ))] ≠ 0 ∧ qMean 2 10 [((0 : ℚ), (6 : ℚ))] ≠ 0 ∧
    (ohmRead "rolling" 2 [(0, 2)] [(0, 6)] 10 =
       .ok (.value (qMean 2 10 [((0 : ℚ), (6 : ℚ))] / qMean 2 10 [((0 : ℚ), (2 : ℚ))])) ∧
     ∀ (av' vv' : List Sample),
       (qFilter 2 10 av' = [] ∨ qFilter 2 10 vv' = [] ∨ qMean 2 10 av' = 0) →
       ohmRead "rolling" 2 av' vv' 10 = .ok .notEnough) :=
  ⟨by norm_num [qFilter, qualifies, tdSeconds, List.filter],
   by norm_num [qFilter, qualifies, tdSeconds, List.filter],
   by norm_num [qMean, qFilter, qualifies, tdSeconds, sumSnd, List.filter],
   by norm_num [qMean, qFilter, qualifies, tdSeconds, sumSnd, List.filter],
   rolling_mode_mean_ratio 2 10 [(0, 2)] [(0, 6)]
     (by norm_num [qFilter, qualifies, tdSeconds, List.filter])
     (by norm_num [qFilter, qualifies, tdSeconds, List.filter])
     (by norm_num [qMean, qFilter, qualifies, tdSeconds, sumSnd, List.filter])
     (by norm_num [qMean, qFilter, qualifies, tdSeconds, sumSnd, List.filter])⟩

/-- Claim C9: a connected device's `read()` (with the module-global
`circuit` bound, as at the entry point) appends the new `(timestamp,
value)` sample to its own history, and its event trace shows the append
happening before any notification, every registered child observer being
notified with the device's name and that sample tuple, in registration
order. -/
theorem read_appends_then_notifies_in_order (g : Circuit) (d : Device)
    (c : Circuit) (now : ℚ) (hc : d.circuit = some c)
    (hp : d.parameter = "volt" ∨ d.parameter = "amp") :
    ∃ v, Device.read (some (some g)) d now =
      .ok ({ d with values := d.values ++ [(now, v)] },
           ReadEvent.append (now, v) ::
             d.childDevices.map (fun i => ReadEvent.notify i d.name (now, v))
             ++ [ReadEvent.printSample (now, v)]) := by
  rcases hp with hp | hp
  · exact ⟨c.volt, by simp [Device.read, hc, hp, Circuit.getProp]⟩
  · exact ⟨c.amp, by simp [Device.read, hc, hp, Circuit.getProp]⟩

/-- Witness for C9: a voltmeter on `mainCircuit` with child observers
`[0, 1]`, read at time `3`. -/
theorem read_appends_then_notifies_in_order_witness :
    witDevice.circuit = some mainCircuit ∧
    (witDevice.parameter = "volt" ∨ witDevice.parameter = "amp") ∧
    ∃ v, Device.read (some (some mainCircuit)) witDevice 3 =
      .ok ({ witDevice with values := witDevice.values ++ [(3, v)] },
           ReadEvent.append (3, v) ::
             witDevice.childDevices.map (fun i => ReadEvent.notify i witDevice.name (3, v))
             ++ [ReadEvent.printSample (3, v)]) :=
  ⟨rfl, Or.inl rfl,
    read_appends_then_notifies_in_order mainCircuit witDevice mainCircuit 3 rfl (Or.inl rfl)⟩

/-- The wiring state produced by `Ohmmeter(ammeter=..., voltmeter=...)` in
the entry-point configuration (`mode='last'`, `timeout=1`, `window=2`,
devices `0` and `1` on circuit `7`). -/
def ohmBuilt : OhmM :=
  { attrs := [("ammeter", .devRef 0), ("voltmeter", .devRef 1),
              ("circuit", .circRef 7), ("timeout", .num 1),
              ("mode", .str "last"), ("window", .num 2),
              ("ammeter_values", .samples []), ("voltmeter_values", .samples [])],
    observerRegs := [0, 1], circuitRegs := [7, 7] }

/-- `ohmBuilt` after `connect('timeout', device5)`: the `timeout` attribute
now holds a device reference and device `5` gained an observer. -/
def ohmAfterTimeout : OhmM :=
  { attrs := [("ammeter", .devRef 0), ("voltmeter", .devRef 1),
              ("circuit", .circRef 7), ("timeout", .devRef 5),
              ("mode", .str "last"), ("window", .num 2),
              ("ammeter_values", .samples []), ("voltmeter_values", .samples [])],
    observerRegs := [0, 1, 5], circuitRegs := [7, 7, 7] }

/-- Claim C4 (failing part): binding an ammeter and a voltmeter that sit on
different circuits makes `Ohmmeter.__init__` fail at bind time — but by
raising `NameError` (the raise statement misspells `ValueError` as
`VauleError`), not the intended mismatched-circuit error. -/
theorem mismatched_circuits_fail_at_bind (env : Nat → Option Nat)
    (am vm : Nat) (t w : ℚ) (m : String) (h : env am ≠ env vm) :
    Ohmmeter.init env (some am) (some vm) t m w =
      .error (.nameError "VauleError") := by
  simp only [Ohmmeter.init, Ohmmeter.connect, Ohmmeter.connect_circuit,
    hasattrA, getattrA, setattrA, Except.bind, List.find?, List.map]
  simp [h]

/-- Witness for C4: devices `0` and `1` of `splitEnv` sit on circuits `7`
and `8`. -/
theorem mismatched_circuits_fail_at_bind_witness :
    splitEnv 0 ≠ splitEnv 1 ∧
    Ohmmeter.init splitEnv (some 0) (some 1) 1 "last" 2 =
      .error (.nameError "VauleError") :=
  ⟨by decide, mismatched_circuits_fail_at_bind splitEnv 0 1 1 2 "last" (by decide)⟩

/-- Claim C5 (failing part): `connect` with the role name `'timeout'` —
which is neither `'ammeter'` nor `'voltmeter'` — does not raise: because
`hasattr(self, 'timeout')` holds on a constructed ohmmeter, the call
overwrites `self.timeout` with the device and registers the aggregator as
the device's observer. -/
theorem connect_foreign_role_binds_without_error :
    Ohmmeter.init sameEnv (some 0) (some 1) 1 "last" 2 = .ok ohmBuilt ∧
    Ohmmeter.connect sameEnv ohmBuilt "timeout" 5 = .ok ohmAfterTimeout ∧
    getattrA ohmAfterTimeout.attrs "timeout" = some (.devRef 5) ∧
    ohmAfterTimeout.observerRegs = ohmBuilt.observerRegs ++ [5] ∧
    "timeout" ≠ "ammeter" ∧ "timeout" ≠ "voltmeter" := by
  refine ⟨?_, ?_, by decide, by decide, by decide, by decide⟩
  · simp [Ohmmeter.init, Ohmmeter.connect, Ohmmeter.connect_circuit,
      hasattrA, getattrA, setattrA, Except.bind, sameEnv, ohmBuilt]
  · simp [Ohmmeter.connect, Ohmmeter.connect_circuit,
      hasattrA, getattrA, setattrA, Except.bind, sameEnv, ohmBuilt, ohmAfterTimeout]

/-- Claim C10: constructing an ohmmeter with an ammeter and a voltmeter on
the same circuit appends the ohmmeter to that circuit's
`connected_devices` twice — once from the `connect_circuit()` triggered by
the second `connect()` and once from the constructor's final
`connect_circuit()` — so it is registered as a periodic participant in
duplicate. -/
theorem init_registers_in_circuit_twice (env : Nat → Option Nat)
    (am vm c : Nat) (t w : ℚ) (m : String)
    (ha : env am = some c) (hv : env vm = some c) :
    ∃ s, Ohmmeter.init env (some am) (some vm) t m w = .ok s ∧
      s.circuitRegs = [c, c] ∧ s.observerRegs = [am, vm] := by
  simp only [Ohmmeter.init, Ohmmeter.connect, Ohmmeter.connect_circuit,
    hasattrA, getattrA, setattrA, Except.bind, ha, hv, List.find?, List.map,
    List.append_eq, List.cons_append, List.nil_append]
  simp [ha, hv]

/-- Witness for C10 in the entry-point wiring: devices `0` and `1` on
circuit `7`. -/
theorem init_registers_in_circuit_twice_witness :
    sameEnv 0 = some 7 ∧ sameEnv 1 = some 7 ∧
    ∃ s, Ohmmeter.init sameEnv (some 0) (some 1) 1 "last" 2 = .ok s ∧
      s.circuitRegs = [7, 7] ∧ s.observerRegs = [0, 1] :=
  ⟨rfl, rfl, init_registers_in_circuit_twice sameEnv 0 1 7 1 2 "last" rfl rfl⟩
